import Mathlib

/- Shallow embedding of the GPU memory subsystem of this repository:
   src/gst-libs/gst/d3d11/gstd3d11memory.c and the even-dimension fix-up of
   src/gst-libs/gst/d3d11/gstd3d11bufferpool.c.

   The state the claims depend on is modelled explicitly: the per-memory
   transfer flags (NEED_UPLOAD / NEED_DOWNLOAD), the reentrant CPU map
   counter, and the allocator slot bitmap, in-use counter and flushing flag.
   Device-context calls (CopySubresourceRegion, Map, Unmap) are recorded in
   an event list; fallible device calls are driven by an environment of
   success bits.  The guint in-use counter uses arithmetic modulo 2^32.
   The decoder/processor view side tables and the per-view caches do not
   affect any of the modelled outcomes and are left out. -/

inductive GstD3D11MemoryType
  | texture
  | array
  | staging
  deriving DecidableEq, Repr

/-- GstMapFlags restricted to the bits read by gstd3d11memory.c:
GST_MAP_READ, GST_MAP_WRITE and GST_MAP_D3D11. -/
structure GstMapFlags where
  read : Bool
  write : Bool
  d3d11 : Bool
  deriving DecidableEq, Repr

/-- Device-context calls issued while mapping and unmapping. -/
inductive DevEvent
  | copyStagingToTexture
  | copyTextureToStaging
  | hwMap
  | hwUnmap
  deriving DecidableEq, Repr

/-- The fields of GstD3D11MemoryPrivate (plus the two transfer flags kept in
the GstMiniObject flag word) that the mapping protocol reads and writes. -/
structure GstD3D11Memory where
  memType : GstD3D11MemoryType
  hasStaging : Bool
  needUpload : Bool
  needDownload : Bool
  cpuMapCount : Int
  subresourceIndex : Nat
  deriving DecidableEq, Repr

inductive MapResult
  | textureHandle
  | dataPointer
  deriving DecidableEq, Repr

/-- Success bits for the fallible device calls reached from the map path. -/
structure DeviceEnv where
  stagingCreateOk : Bool
  hwMapOk : Bool
  deriving DecidableEq, Repr

/-- gst_d3d11_memory_map_staging: used for STAGING typed memory without the
GST_MAP_D3D11 flag.  The hardware map happens only when the counter is 0. -/
def gst_d3d11_memory_map_staging (env : DeviceEnv) (m : GstD3D11Memory) :
    GstD3D11Memory × List DevEvent × Option MapResult :=
  if m.cpuMapCount = 0 then
    if env.hwMapOk then
      ({ m with cpuMapCount := m.cpuMapCount + 1 }, [DevEvent.hwMap],
        some MapResult.dataPointer)
    else
      (m, [DevEvent.hwMap], none)
  else
    ({ m with cpuMapCount := m.cpuMapCount + 1 }, [], some MapResult.dataPointer)

/-- gst_d3d11_memory_map.  Returns the new memory state, the device calls
issued, and the returned pointer (none models a NULL return). -/
def gst_d3d11_memory_map (env : DeviceEnv) (m : GstD3D11Memory)
    (flags : GstMapFlags) : GstD3D11Memory × List DevEvent × Option MapResult :=
  if m.memType = GstD3D11MemoryType.staging then
    if flags.d3d11 then (m, [], some MapResult.textureHandle)
    else gst_d3d11_memory_map_staging env m
  else if flags.d3d11 then
    let evs := if m.hasStaging && m.needUpload then
        [DevEvent.copyStagingToTexture] else []
    let m1 := { m with needUpload := false }
    let m2 := if flags.write then { m1 with needDownload := true } else m1
    (m2, evs, some MapResult.textureHandle)
  else
    if m.cpuMapCount = 0 then
      if !m.hasStaging && !env.stagingCreateOk then
        (m, [], none)
      else
        let m1 := if m.hasStaging then m
          else { m with hasStaging := true, needDownload := true }
        let evs := (if m1.needDownload then [DevEvent.copyTextureToStaging]
            else []) ++ [DevEvent.hwMap]
        if env.hwMapOk then
          let m2 := { m1 with
          needUpload := flags.write || m1.needUpload,
          needDownload := false,
          cpuMapCount := m1.cpuMapCount + 1 }
        (m2, evs, some MapResult.dataPointer)
        else
          (m1, evs, none)
    else
      let m2 := { m with
        needUpload := flags.write || m.needUpload,
        needDownload := false,
        cpuMapCount := m.cpuMapCount + 1 }
      (m2, [], some MapResult.dataPointer)

/-- gst_d3d11_memory_unmap_full. -/
def gst_d3d11_memory_unmap_full (m : GstD3D11Memory) (flags : GstMapFlags) :
    GstD3D11Memory × List DevEvent :=
  if flags.d3d11 then
    if m.memType ≠ GstD3D11MemoryType.staging ∧ flags.write = true then
      ({ m with needDownload := true }, [])
    else (m, [])
  else
    let m1 := if m.memType ≠ GstD3D11MemoryType.staging ∧ flags.write = true
      then { m with needUpload := true } else m
    let m2 := { m1 with cpuMapCount := m1.cpuMapCount - 1 }
    if m2.cpuMapCount > 0 then (m2, [])
    else (m2, [DevEvent.hwUnmap])

/-- gst_d3d11_memory_share: the body is a bare NULL return, so no sub-memory
is produced and the memory object is untouched. -/
def gst_d3d11_memory_share (m : GstD3D11Memory) (offset size : Int) :
    Option Unit × GstD3D11Memory :=
  (none, m)

/-- The fields of GstD3D11AllocatorPrivate driving allocation and free. -/
structure GstD3D11Allocator where
  hasTexture : Bool
  arrayInUse : Option (List Bool)
  numArrayTexturesInUse : Nat
  arrayTextureSize : Nat
  flushing : Bool
  deriving DecidableEq, Repr

/-- The D3D11_TEXTURE2D_DESC fields the allocator reads. -/
structure TexDesc where
  width : Nat
  height : Nat
  arraySize : Nat
  bindFlags : Nat
  deriving DecidableEq, Repr

structure AllocEnv where
  createTextureOk : Bool
  deriving DecidableEq, Repr

inductive AllocResult
  | memory (t : GstD3D11MemoryType) (subresourceIndex : Nat)
  | waitRetry
  | error
  deriving DecidableEq, Repr

/-- The first-fit scan over array_in_use: first index holding 0, as in the
for loop of gst_d3d11_allocator_alloc (the loop bound desc->ArraySize equals
the length of the list it scans). -/
def firstFreeIndex : List Bool → Option Nat
  | [] => none
  | b :: rest => if b then (firstFreeIndex rest).map (· + 1) else some 0

/-- First-use creation of array_in_use, sized to desc->ArraySize. -/
def ensureArrayInUse (a : GstD3D11Allocator) (desc : TexDesc) :
    GstD3D11Allocator :=
  if a.arrayInUse.isNone then
    { a with
      arrayInUse := some (List.replicate desc.arraySize false),
      arrayTextureSize := desc.arraySize }
  else a

/-- One locked pass of gst_d3d11_allocator_alloc (the body between do_again
and the return; a thread woken from g_cond_wait re-runs this same pass).
waitRetry models reaching g_cond_wait with every slot in use. -/
def gst_d3d11_allocator_alloc_attempt (env : AllocEnv) (a : GstD3D11Allocator)
    (desc : TexDesc) (arrayFlag : Bool) : AllocResult × GstD3D11Allocator :=
  if arrayFlag then
    if a.flushing then (AllocResult.error, a)
    else
      let a1 := ensureArrayInUse a desc
      let inUse := a1.arrayInUse.getD []
      match firstFreeIndex inUse with
      | none => (AllocResult.waitRetry, a1)
      | some i =>
        let a2 := { a1 with
          arrayInUse := some (inUse.set i true),
          numArrayTexturesInUse := (a1.numArrayTexturesInUse + 1) % 2 ^ 32 }
        if !a2.hasTexture then
          if env.createTextureOk then
            (AllocResult.memory GstD3D11MemoryType.array i,
              { a2 with hasTexture := true })
          else
            (AllocResult.error, a2)
        else
          (AllocResult.memory GstD3D11MemoryType.array i, a2)
  else
    if env.createTextureOk then
      (AllocResult.memory GstD3D11MemoryType.texture 0, a)
    else
      (AllocResult.error, a)

/-- gst_d3d11_allocator_free, restricted to the allocator bookkeeping the
claims are about.  The returned Bool records whether g_cond_broadcast ran. -/
def gst_d3d11_allocator_free (a : GstD3D11Allocator) (m : GstD3D11Memory) :
    GstD3D11Allocator × Bool :=
  match a.arrayInUse with
  | some inUse =>
      let a2 := { a with
        arrayInUse := some (inUse.set m.subresourceIndex false),
        numArrayTexturesInUse :=
          (a.numArrayTexturesInUse + (2 ^ 32 - 1)) % 2 ^ 32 }
      (a2, true)
  | none => (a, false)

/-- gst_d3d11_allocator_set_flushing: sets the flag under the lock and always
broadcasts the condition variable. -/
def gst_d3d11_allocator_set_flushing (a : GstD3D11Allocator)
    (flushing : Bool) : GstD3D11Allocator × Bool :=
  ({ a with flushing := flushing }, true)

inductive DxgiFormat
  | NV12
  | P010
  | P016
  | B8G8R8A8
  | R8G8B8A8
  | R10G10B10A2
  | AYUV
  | YUY2
  | Y210
  | Y410
  | UNKNOWN
  deriving DecidableEq, Repr

/-- GST_ROUND_UP_2. -/
def GST_ROUND_UP_2 (n : Nat) : Nat := 2 * ((n + 1) / 2)

structure GstVideoAlignment where
  padding_left : Nat
  padding_right : Nat
  padding_top : Nat
  padding_bottom : Nat
  deriving DecidableEq, Repr

/-- gst_d3d11_allocation_params_alignment restricted to the first-plane
descriptor: the new width and height are the original plus the total
padding (for the formats reaching this call the plane-0 component
dimensions equal the frame dimensions). -/
def gst_d3d11_allocation_params_alignment (w h : Nat)
    (al : GstVideoAlignment) : Nat × Nat :=
  (w + al.padding_left + al.padding_right,
    h + al.padding_top + al.padding_bottom)

/-- The semi-planar formats singled out by gst_d3d11_buffer_pool_set_config. -/
def isSemiPlanar (f : DxgiFormat) : Bool :=
  f = DxgiFormat.NV12 || f = DxgiFormat.P010 || f = DxgiFormat.P016

/-- The even-dimension fix-up in gst_d3d11_buffer_pool_set_config, applied
to the first-plane descriptor.  Returns the corrected dimensions and the
GstVideoAlignment handed to gst_d3d11_allocation_params_alignment. -/
def gst_d3d11_buffer_pool_even_fix (f : DxgiFormat) (w h : Nat) :
    (Nat × Nat) × GstVideoAlignment :=
  if isSemiPlanar f && (w % 2 != 0 || h % 2 != 0) then
    let w2 := GST_ROUND_UP_2 w
    let h2 := GST_ROUND_UP_2 h
    let al : GstVideoAlignment :=
      { padding_left := 0, padding_right := w2 - w,
        padding_top := 0, padding_bottom := h2 - h }
    (gst_d3d11_allocation_params_alignment w h al, al)
  else
    ((w, h),
      { padding_left := 0, padding_right := 0,
        padding_top := 0, padding_bottom := 0 })

example :
    gst_d3d11_buffer_pool_even_fix DxgiFormat.NV12 3 5 =
      ((4, 6),
        { padding_left := 0, padding_right := 1,
          padding_top := 0, padding_bottom := 1 }) := by decide

example :
    firstFreeIndex [true, true, false, false] = some 2 := by decide

/-- Concrete instances used to instantiate the claim theorems. -/
def c1env : DeviceEnv := { stagingCreateOk := true, hwMapOk := true }

def c1mem : GstD3D11Memory :=
  { memType := GstD3D11MemoryType.texture, hasStaging := true,
    needUpload := true, needDownload := false, cpuMapCount := 0,
    subresourceIndex := 0 }

def c1flags : GstMapFlags := { read := false, write := false, d3d11 := true }

def c2alloc : GstD3D11Allocator :=
  { hasTexture := true, arrayInUse := some [true], numArrayTexturesInUse := 1,
    arrayTextureSize := 1, flushing := false }

def c2mem : GstD3D11Memory :=
  { memType := GstD3D11MemoryType.staging, hasStaging := false,
    needUpload := false, needDownload := false, cpuMapCount := 0,
    subresourceIndex := 0 }

def c3alloc : GstD3D11Allocator :=
  { hasTexture := false, arrayInUse := some [false], numArrayTexturesInUse := 0,
    arrayTextureSize := 1, flushing := false }

def c3desc : TexDesc :=
  { width := 320, height := 240, arraySize := 1, bindFlags := 0 }

def c4env : DeviceEnv := { stagingCreateOk := true, hwMapOk := false }

def c4mem : GstD3D11Memory :=
  { memType := GstD3D11MemoryType.texture, hasStaging := false,
    needUpload := false, needDownload := false, cpuMapCount := 0,
    subresourceIndex := 0 }

def c4flags : GstMapFlags := { read := true, write := false, d3d11 := false }

def c5alloc : GstD3D11Allocator :=
  { hasTexture := true, arrayInUse := some [false, false],
    numArrayTexturesInUse := 0, arrayTextureSize := 2, flushing := true }

def c5desc : TexDesc :=
  { width := 320, height := 240, arraySize := 2, bindFlags := 0 }

def c6env : DeviceEnv := { stagingCreateOk := true, hwMapOk := true }

def c6mem : GstD3D11Memory :=
  { memType := GstD3D11MemoryType.texture, hasStaging := false,
    needUpload := false, needDownload := false, cpuMapCount := 0,
    subresourceIndex := 0 }

def c6flags : GstMapFlags := { read := true, write := false, d3d11 := false }

/-- The sequence of claim C6: map, map, unmap, unmap with the same flags. -/
def twoMapsTwoUnmaps (env : DeviceEnv) (m : GstD3D11Memory)
    (flags : GstMapFlags) :
    (GstD3D11Memory × List DevEvent × Option MapResult) ×
    (GstD3D11Memory × List DevEvent × Option MapResult) ×
    (GstD3D11Memory × List DevEvent) × (GstD3D11Memory × List DevEvent) :=
  let r1 := gst_d3d11_memory_map env m flags
  let r2 := gst_d3d11_memory_map env r1.1 flags
  let r3 := gst_d3d11_memory_unmap_full r2.1 flags
  let r4 := gst_d3d11_memory_unmap_full r3.1 flags
  (r1, r2, r3, r4)

def c7mem : GstD3D11Memory :=
  { memType := GstD3D11MemoryType.texture, hasStaging := true,
    needUpload := false, needDownload := true, cpuMapCount := 2,
    subresourceIndex := 0 }

def c7flags : GstMapFlags := { read := true, write := true, d3d11 := false }

def c8alloc : GstD3D11Allocator :=
  { hasTexture := true, arrayInUse := some [true, false, false],
    numArrayTexturesInUse := 1, arrayTextureSize := 3, flushing := false }

def c8allocFull : GstD3D11Allocator :=
  { hasTexture := true, arrayInUse := some [true, true],
    numArrayTexturesInUse := 2, arrayTextureSize := 2, flushing := false }

def c8mem : GstD3D11Memory :=
  { memType := GstD3D11MemoryType.array, hasStaging := false,
    needUpload := false, needDownload := false, cpuMapCount := 0,
    subresourceIndex := 0 }

def c8desc : TexDesc :=
  { width := 320, height := 240, arraySize := 3, bindFlags := 0 }

def c8env : AllocEnv := { createTextureOk := true }

lemma firstFreeIndex_lowest : ∀ (l : List Bool) (i : Nat),
    firstFreeIndex l = some i →
    (∀ j, j < i → l.getD j false = true) ∧ l.getD i false = false := by
  intro l
  induction l with
  | nil => intro i h; simp [firstFreeIndex] at h
  | cons b rest ih =>
    intro i h
    cases b with
    | false =>
      simp [firstFreeIndex] at h
      subst h
      exact ⟨fun j hj => absurd hj (Nat.not_lt_zero j), rfl⟩
    | true =>
      simp only [firstFreeIndex, if_true, Option.map_eq_some'] at h
      obtain ⟨i2, hfr, hi⟩ := h
      subst hi
      obtain ⟨h1, h2⟩ := ih i2 hfr
      refine ⟨?_, by simpa using h2⟩
      intro j hj
      cases j with
      | zero => simp
      | succ j2 => simpa using h1 j2 (by omega)

lemma firstFreeIndex_set_false : ∀ (l : List Bool) (j : Nat),
    (∀ x ∈ l, x = true) → j < l.length →
    firstFreeIndex (l.set j false) = some j := by
  intro l
  induction l with
  | nil => intro j _ hj; simp at hj
  | cons b rest ih =>
    intro j hall hj
    cases j with
    | zero => simp [firstFreeIndex]
    | succ j2 =>
      have hb : b = true := hall b (by simp)
      subst hb
      have hrec : firstFreeIndex (rest.set j2 false) = some j2 :=
        ih j2 (fun x hx => hall x (by simp [hx])) (by simpa using hj)
      simp [firstFreeIndex, hrec]

/-- Claim C1: for every non-staging memory object, a GPU-direct map
(GST_MAP_D3D11) returns the texture handle, performs exactly one
staging-to-texture subresource-region copy precisely when a staging texture
exists and the pending NEED_UPLOAD transfer flag (the flag a CPU write
leaves set) is set, skips the copy otherwise, and clears that flag before
returning. -/
theorem C1_gpu_direct_map_uploads (env : DeviceEnv) (m : GstD3D11Memory)
    (flags : GstMapFlags) (hns : m.memType ≠ GstD3D11MemoryType.staging)
    (hd : flags.d3d11 = true) :
    (gst_d3d11_memory_map env m flags).2.2 = some MapResult.textureHandle ∧
    (gst_d3d11_memory_map env m flags).1.needUpload = false ∧
    (gst_d3d11_memory_map env m flags).2.1 =
      (if m.hasStaging && m.needUpload then [DevEvent.copyStagingToTexture]
        else []) := by
  simp only [gst_d3d11_memory_map, hd, if_neg hns, if_true]
  by_cases hw : flags.write = true <;> simp [hw]

theorem C1_gpu_direct_map_uploads_witness :
    (gst_d3d11_memory_map c1env c1mem c1flags).2.2 =
      some MapResult.textureHandle ∧
    (gst_d3d11_memory_map c1env c1mem c1flags).1.needUpload = false ∧
    (gst_d3d11_memory_map c1env c1mem c1flags).2.1 =
      [DevEvent.copyStagingToTexture] := by
  have h := C1_gpu_direct_map_uploads c1env c1mem c1flags (by decide) rfl
  simpa [c1mem] using h

/-- Claim C2 counterexample: freeing a STAGING typed memory object through an
allocator whose array_in_use bitmap exists clears the bitmap slot at the
subresource index, decrements the in-use counter and broadcasts the
condition variable, although the freed object is not an array slice; the
claim requires the allocator state to be left unchanged here. -/
theorem C2_counterexample :
    c2mem.memType = GstD3D11MemoryType.staging ∧
    (gst_d3d11_allocator_free c2alloc c2mem).1.arrayInUse = some [false] ∧
    (gst_d3d11_allocator_free c2alloc c2mem).1.numArrayTexturesInUse = 0 ∧
    (gst_d3d11_allocator_free c2alloc c2mem).2 = true := by decide

/-- Claim C2 (amended): the bitmap-slot clear, in-use counter decrement and
condition-variable broadcast in the free operation happen if and only if the
allocator array_in_use bitmap exists, regardless of the freed object type;
when the bitmap was never created, free leaves the allocator unchanged and
does not broadcast. -/
theorem C2_free_guarded_by_bitmap (a : GstD3D11Allocator)
    (m : GstD3D11Memory) :
    (∀ l, a.arrayInUse = some l →
      gst_d3d11_allocator_free a m =
        ({ a with
            arrayInUse := some (l.set m.subresourceIndex false),
            numArrayTexturesInUse :=
              (a.numArrayTexturesInUse + (2 ^ 32 - 1)) % 2 ^ 32 }, true)) ∧
    (a.arrayInUse = none → gst_d3d11_allocator_free a m = (a, false)) := by
  constructor
  · intro l hl
    simp [gst_d3d11_allocator_free, hl]
  · intro h
    simp [gst_d3d11_allocator_free, h]

theorem C2_free_guarded_by_bitmap_witness :
    gst_d3d11_allocator_free c2alloc c2mem =
      ({ c2alloc with
          arrayInUse := some [false],
          numArrayTexturesInUse := 0 }, true) := by
  have h := (C2_free_guarded_by_bitmap c2alloc c2mem).1 [true] rfl
  rw [h]
  decide

/-- Claim C3 (code bug): in array mode, after the free slot 0 is marked in
use and the native texture creation then fails, the alloc attempt returns
the error result but leaves the slot marked in use and the in-use counter
incremented — the partially acquired slot is not released on the error
path. -/
theorem C3_slot_leak_on_creation_failure :
    (gst_d3d11_allocator_alloc_attempt { createTextureOk := false } c3alloc
        c3desc true).1 = AllocResult.error ∧
    (gst_d3d11_allocator_alloc_attempt { createTextureOk := false } c3alloc
        c3desc true).2.arrayInUse = some [true] ∧
    (gst_d3d11_allocator_alloc_attempt { createTextureOk := false } c3alloc
        c3desc true).2.numArrayTexturesInUse = 1 := by decide

/-- Claim C4 counterexample: a CPU map on a non-staging object whose staging
creation succeeds but whose native map fails returns NULL without
incrementing the map counter, yet the created staging texture and the
NEED_DOWNLOAD flag set at its creation persist, where the claim requires
that no state change persists. -/
theorem C4_counterexample :
    c4mem.hasStaging = false ∧
    (gst_d3d11_memory_map c4env c4mem c4flags).2.2 = none ∧
    (gst_d3d11_memory_map c4env c4mem c4flags).1.cpuMapCount = 0 ∧
    (gst_d3d11_memory_map c4env c4mem c4flags).1.hasStaging = true ∧
    (gst_d3d11_memory_map c4env c4mem c4flags).1.needDownload = true := by
  decide

/-- Claim C4 (amended): for every non-staging memory object, a failing CPU
map returns NULL and never increments the map counter; when the staging
texture already existed, or staging creation itself failed, the object is
left fully unchanged; the only state that can persist from a failing
attempt is a staging texture created during it together with the
NEED_DOWNLOAD flag set at its creation.  Only a successful CPU map
increments the map counter. -/
theorem C4_cpu_map_failure (env : DeviceEnv) (m : GstD3D11Memory)
    (flags : GstMapFlags) (hns : m.memType ≠ GstD3D11MemoryType.staging)
    (hd : flags.d3d11 = false) :
    ((gst_d3d11_memory_map env m flags).2.2 = none →
      (gst_d3d11_memory_map env m flags).1.cpuMapCount = m.cpuMapCount ∧
      (gst_d3d11_memory_map env m flags).1.needUpload = m.needUpload ∧
      (m.hasStaging = true → (gst_d3d11_memory_map env m flags).1 = m) ∧
      (env.stagingCreateOk = false →
        (gst_d3d11_memory_map env m flags).1 = m) ∧
      ((gst_d3d11_memory_map env m flags).1 = m ∨
        (gst_d3d11_memory_map env m flags).1 =
          { m with hasStaging := true, needDownload := true })) ∧
    ((gst_d3d11_memory_map env m flags).2.2 ≠ none →
      (gst_d3d11_memory_map env m flags).1.cpuMapCount = m.cpuMapCount + 1) := by
  by_cases hc : m.cpuMapCount = 0 <;>
    cases hS : m.hasStaging <;>
      cases hOk : env.stagingCreateOk <;>
        cases hM : env.hwMapOk <;>
          simp [gst_d3d11_memory_map, hd, if_neg hns, hc, hS, hOk, hM]

theorem C4_cpu_map_failure_witness :
    (gst_d3d11_memory_map c4env c4mem c4flags).1.cpuMapCount =
      c4mem.cpuMapCount ∧
    ((gst_d3d11_memory_map c4env c4mem c4flags).1 = c4mem ∨
      (gst_d3d11_memory_map c4env c4mem c4flags).1 =
        { c4mem with hasStaging := true, needDownload := true }) := by
  have h := C4_cpu_map_failure c4env c4mem c4flags (by decide) rfl
  have h2 := h.1 (by decide)
  exact ⟨h2.1, h2.2.2.2.2⟩

/-- Claim C5: an array-mode alloc pass that observes flushing = true under
the allocator lock returns the error result at once with the allocator state
unchanged, so it neither scans for a slot nor re-enters the wait; every
fresh entry and every wake from the condition-variable wait re-runs this
same pass.  set_flushing true sets the flag and broadcasts the condition
variable unconditionally, so no thread can remain blocked in the slot
wait. -/
theorem C5_flushing_fast_fail (env : AllocEnv) (a : GstD3D11Allocator)
    (desc : TexDesc) (hf : a.flushing = true) :
    gst_d3d11_allocator_alloc_attempt env a desc true =
      (AllocResult.error, a) ∧
    (gst_d3d11_allocator_set_flushing a true).1.flushing = true ∧
    (gst_d3d11_allocator_set_flushing a true).2 = true := by
  refine ⟨?_, rfl, rfl⟩
  simp [gst_d3d11_allocator_alloc_attempt, hf]

theorem C5_flushing_fast_fail_witness :
    gst_d3d11_allocator_alloc_attempt c8env c5alloc c5desc true =
      (AllocResult.error, c5alloc) ∧
    (gst_d3d11_allocator_set_flushing c5alloc true).2 = true := by
  have h := C5_flushing_fast_fail c8env c5alloc c5desc rfl
  exact ⟨h.1, h.2.2⟩

/-- Claim C7 counterexample: an unmap released under CPU access with write
intent sets NEED_UPLOAD and decrements the map counter but does not clear
NEED_DOWNLOAD: with NEED_DOWNLOAD set before the call it is still set
afterwards, where the claim requires it cleared as part of the unmap. -/
theorem C7_counterexample :
    c7mem.needDownload = true ∧
    (gst_d3d11_memory_unmap_full c7mem c7flags).1.needUpload = true ∧
    (gst_d3d11_memory_unmap_full c7mem c7flags).1.needDownload = true ∧
    (gst_d3d11_memory_unmap_full c7mem c7flags).1.cpuMapCount = 1 := by
  decide

/-- Claim C7 (amended): for every non-staging memory object, an unmap
released under CPU access with write intent sets NEED_UPLOAD and leaves
NEED_DOWNLOAD unchanged (that flag is cleared during a CPU map, not during
unmap), then decrements the map counter, with the underlying hardware unmap
performed exactly when the decremented counter is not positive. -/
theorem C7_cpu_unmap_write (m : GstD3D11Memory) (flags : GstMapFlags)
    (hns : m.memType ≠ GstD3D11MemoryType.staging) (hd : flags.d3d11 = false)
    (hw : flags.write = true) :
    (gst_d3d11_memory_unmap_full m flags).1.needUpload = true ∧
    (gst_d3d11_memory_unmap_full m flags).1.needDownload = m.needDownload ∧
    (gst_d3d11_memory_unmap_full m flags).1.cpuMapCount = m.cpuMapCount - 1 ∧
    (gst_d3d11_memory_unmap_full m flags).2 =
      (if m.cpuMapCount - 1 > 0 then [] else [DevEvent.hwUnmap]) := by
  by_cases hpos : m.cpuMapCount - 1 > 0 <;>
    simp [gst_d3d11_memory_unmap_full, hd, hns, hw, hpos]

theorem C7_cpu_unmap_write_witness :
    (gst_d3d11_memory_unmap_full c7mem c7flags).1.needUpload = true ∧
    (gst_d3d11_memory_unmap_full c7mem c7flags).1.needDownload =
      c7mem.needDownload ∧
    (gst_d3d11_memory_unmap_full c7mem c7flags).1.cpuMapCount =
      c7mem.cpuMapCount - 1 := by
  have h := C7_cpu_unmap_write c7mem c7flags (by decide) rfl rfl
  exact ⟨h.1, h.2.1, h.2.2.1⟩

set_option maxHeartbeats 1000000 in
/-- Claim C6: for every non-staging memory object with map counter 0, two
nested CPU maps followed by two unmaps succeed, perform exactly one
underlying hardware map and then exactly one underlying hardware unmap in
that order (shown on the trace of device calls), while the inner map and the
first unmap issue no device call, and the counter moves 0, 1, 2, 1, 0. -/
theorem C6_map_unmap_reentrancy (env : DeviceEnv) (m : GstD3D11Memory)
    (flags : GstMapFlags) (hns : m.memType ≠ GstD3D11MemoryType.staging)
    (hd : flags.d3d11 = false) (hc : m.cpuMapCount = 0)
    (hs : env.stagingCreateOk = true) (hm : env.hwMapOk = true) :
    ((twoMapsTwoUnmaps env m flags).1.2.2 = some MapResult.dataPointer) ∧
    ((twoMapsTwoUnmaps env m flags).2.1.2.2 = some MapResult.dataPointer) ∧
    (((twoMapsTwoUnmaps env m flags).1.2.1 ++
        (twoMapsTwoUnmaps env m flags).2.1.2.1 ++
        (twoMapsTwoUnmaps env m flags).2.2.1.2 ++
        (twoMapsTwoUnmaps env m flags).2.2.2.2).filter
        (fun e => e == DevEvent.hwMap || e == DevEvent.hwUnmap) =
      [DevEvent.hwMap, DevEvent.hwUnmap]) ∧
    ((twoMapsTwoUnmaps env m flags).2.1.2.1 = [] ∧
      (twoMapsTwoUnmaps env m flags).2.2.1.2 = []) ∧
    ((twoMapsTwoUnmaps env m flags).1.1.cpuMapCount = 1 ∧
      (twoMapsTwoUnmaps env m flags).2.1.1.cpuMapCount = 2 ∧
      (twoMapsTwoUnmaps env m flags).2.2.1.1.cpuMapCount = 1 ∧
      (twoMapsTwoUnmaps env m flags).2.2.2.1.cpuMapCount = 0) := by
  obtain ⟨mt, hsg, nu, nd, cnt, si⟩ := m
  obtain ⟨fr, fw, fd⟩ := flags
  obtain ⟨es, eh⟩ := env
  simp only at hd hc hs hm
  subst hd hc hs hm
  cases mt with
  | staging => exact absurd rfl hns
  | texture =>
    cases hsg <;> cases nu <;> cases nd <;> cases fr <;> cases fw <;>
      norm_num [twoMapsTwoUnmaps, gst_d3d11_memory_map,
        gst_d3d11_memory_unmap_full,
        show GstD3D11MemoryType.texture ≠ GstD3D11MemoryType.staging from
          by decide] <;> decide
  | array =>
    cases hsg <;> cases nu <;> cases nd <;> cases fr <;> cases fw <;>
      norm_num [twoMapsTwoUnmaps, gst_d3d11_memory_map,
        gst_d3d11_memory_unmap_full,
        show GstD3D11MemoryType.array ≠ GstD3D11MemoryType.staging from
          by decide] <;> decide

theorem C6_map_unmap_reentrancy_witness :
    ((twoMapsTwoUnmaps c6env c6mem c6flags).1.2.1 ++
        (twoMapsTwoUnmaps c6env c6mem c6flags).2.1.2.1 ++
        (twoMapsTwoUnmaps c6env c6mem c6flags).2.2.1.2 ++
        (twoMapsTwoUnmaps c6env c6mem c6flags).2.2.2.2).filter
        (fun e => e == DevEvent.hwMap || e == DevEvent.hwUnmap) =
      [DevEvent.hwMap, DevEvent.hwUnmap] ∧
    (twoMapsTwoUnmaps c6env c6mem c6flags).2.2.2.1.cpuMapCount = 0 := by
  have h := C6_map_unmap_reentrancy c6env c6mem c6flags (by decide) rfl rfl
    rfl rfl
  exact ⟨h.2.2.1, h.2.2.2.2.2.2.2⟩

/-- Claim C8: an array-mode alloc pass that finds a free slot chooses the
lowest free bitmap index (first-fit), marks that entry in use and increments
the in-use counter; and when the bitmap is full and one slot is freed, the
next alloc pass returns exactly that freed slot index, so indices are reused
rather than monotonically increasing. -/
theorem C8_first_fit_reuse :
    (∀ (env : AllocEnv) (a : GstD3D11Allocator) (desc : TexDesc)
        (l : List Bool) (i : Nat),
      a.flushing = false → a.hasTexture = true → a.arrayInUse = some l →
      firstFreeIndex l = some i →
      gst_d3d11_allocator_alloc_attempt env a desc true =
        (AllocResult.memory GstD3D11MemoryType.array i,
          { a with
            arrayInUse := some (l.set i true),
            numArrayTexturesInUse :=
              (a.numArrayTexturesInUse + 1) % 2 ^ 32 }) ∧
      (∀ j, j < i → l.getD j false = true) ∧ l.getD i false = false) ∧
    (∀ (env : AllocEnv) (a : GstD3D11Allocator) (desc : TexDesc)
        (m : GstD3D11Memory) (l : List Bool),
      a.flushing = false → a.hasTexture = true → a.arrayInUse = some l →
      (∀ x ∈ l, x = true) → m.subresourceIndex < l.length →
      (gst_d3d11_allocator_alloc_attempt env
          (gst_d3d11_allocator_free a m).1 desc true).1 =
        AllocResult.memory GstD3D11MemoryType.array m.subresourceIndex) := by
  constructor
  · intro env a desc l i hf hT hA hFree
    refine ⟨?_, (firstFreeIndex_lowest l i hFree).1,
      (firstFreeIndex_lowest l i hFree).2⟩
    simp [gst_d3d11_allocator_alloc_attempt, hf, ensureArrayInUse, hA,
      hFree, hT]
  · intro env a desc m l hf hT hA hall hlen
    have hfree : firstFreeIndex (l.set m.subresourceIndex false) =
        some m.subresourceIndex :=
      firstFreeIndex_set_false l m.subresourceIndex hall hlen
    simp [gst_d3d11_allocator_free, hA, gst_d3d11_allocator_alloc_attempt,
      hf, ensureArrayInUse, hfree, hT]

theorem C8_first_fit_reuse_witness :
    (gst_d3d11_allocator_alloc_attempt c8env c8alloc c8desc true).1 =
      AllocResult.memory GstD3D11MemoryType.array 1 ∧
    (gst_d3d11_allocator_alloc_attempt c8env
        (gst_d3d11_allocator_free c8allocFull c8mem).1 c8desc true).1 =
      AllocResult.memory GstD3D11MemoryType.array 0 := by
  constructor
  · have h := (C8_first_fit_reuse.1 c8env c8alloc c8desc
      [true, false, false] 1 rfl rfl rfl rfl).1
    rw [h]
  · exact C8_first_fit_reuse.2 c8env c8allocFull c8desc c8mem [true, true]
      rfl rfl rfl (by decide) (by decide)

/-- Claim C9: the even-dimension fix-up of the pool configuration makes the
first-plane width and height each the smallest multiple of 2 greater than
or equal to the original exactly when the format is semi-planar
(NV12 / P010 / P016), with the whole delta attributed to right and bottom
padding, and leaves every other format unchanged. -/
theorem C9_even_dimension_fix (f : DxgiFormat) (w h : Nat) :
    (isSemiPlanar f = true →
      (gst_d3d11_buffer_pool_even_fix f w h).1.1 % 2 = 0 ∧
      w ≤ (gst_d3d11_buffer_pool_even_fix f w h).1.1 ∧
      (gst_d3d11_buffer_pool_even_fix f w h).1.1 < w + 2 ∧
      (gst_d3d11_buffer_pool_even_fix f w h).1.2 % 2 = 0 ∧
      h ≤ (gst_d3d11_buffer_pool_even_fix f w h).1.2 ∧
      (gst_d3d11_buffer_pool_even_fix f w h).1.2 < h + 2 ∧
      (gst_d3d11_buffer_pool_even_fix f w h).2.padding_left = 0 ∧
      (gst_d3d11_buffer_pool_even_fix f w h).2.padding_top = 0 ∧
      (gst_d3d11_buffer_pool_even_fix f w h).1.1 =
        w + (gst_d3d11_buffer_pool_even_fix f w h).2.padding_right ∧
      (gst_d3d11_buffer_pool_even_fix f w h).1.2 =
        h + (gst_d3d11_buffer_pool_even_fix f w h).2.padding_bottom) ∧
    (isSemiPlanar f = false →
      (gst_d3d11_buffer_pool_even_fix f w h).1 = (w, h)) := by
  unfold gst_d3d11_buffer_pool_even_fix gst_d3d11_allocation_params_alignment
    GST_ROUND_UP_2
  constructor
  · intro hf
    split_ifs with hcond
    · refine ⟨?_, ?_, ?_, ?_, ?_, ?_, ?_, ?_, ?_, ?_⟩ <;> simp <;> omega
    · rw [hf] at hcond
      have hwh : w % 2 = 0 ∧ h % 2 = 0 := by
        simpa using hcond
      refine ⟨?_, ?_, ?_, ?_, ?_, ?_, ?_, ?_, ?_, ?_⟩ <;> simp <;> omega
  · intro hf
    split_ifs with hcond
    · rw [hf] at hcond
      simp at hcond
    · rfl

theorem C9_even_dimension_fix_witness :
    (gst_d3d11_buffer_pool_even_fix DxgiFormat.NV12 3 5).1.1 % 2 = 0 ∧
    3 ≤ (gst_d3d11_buffer_pool_even_fix DxgiFormat.NV12 3 5).1.1 ∧
    (gst_d3d11_buffer_pool_even_fix DxgiFormat.NV12 3 5).1.1 < 5 ∧
    (gst_d3d11_buffer_pool_even_fix DxgiFormat.B8G8R8A8 3 5).1 = (3, 5) := by
  have h1 := (C9_even_dimension_fix DxgiFormat.NV12 3 5).1 (by decide)
  have h2 := (C9_even_dimension_fix DxgiFormat.B8G8R8A8 3 5).2 (by decide)
  exact ⟨h1.1, h1.2.1, h1.2.2.1, h2⟩

/-- Claim C10: the memory-share operation of the GPU memory type returns
NULL for every memory object and every offset and size argument, leaving
the object unchanged. -/
theorem C10_share_returns_null (m : GstD3D11Memory) (offset size : Int) :
    gst_d3d11_memory_share m offset size = (none, m) := rfl
